import Mathlib

/-!
Shallow embedding of the image-normalization pipeline and the inference
adapter of the skin-lesion service (src/image_converter.py,
src/skin_lesion_classifier.py).

External collaborators (the PIL decoder, the filesystem, the zip extractor
and the TensorFlow model loader) are modelled as explicit environment
records of pure functions; the repository's own control flow is translated
function by function.
-/

namespace SkinService

/-! ## Image formats and color modes (PIL) -/

inductive Format
  | PNG | JPEG | MPO | HEIF | HEIC | BMP | GIF | TIFF
deriving DecidableEq, Repr

def Format.name : Format → String
  | .PNG => "PNG"
  | .JPEG => "JPEG"
  | .MPO => "MPO"
  | .HEIF => "HEIF"
  | .HEIC => "HEIC"
  | .BMP => "BMP"
  | .GIF => "GIF"
  | .TIFF => "TIFF"

/-- PIL color modes occurring in the pipeline; `L` stands for the
"any other mode" branch of `_ensure_rgb_mode` (plain grayscale). -/
inductive Mode
  | RGB | RGBA | LA | P | L
deriving DecidableEq, Repr

/-- One decoded bitmap frame.  `px x y` is the channel list of the pixel at
column `x`, row `y` (3 channels for RGB, 4 for RGBA, 2 for LA, 1 for P and
L).  `palette` maps a P-mode index to its RGBA entry. -/
structure Frame where
  mode : Mode
  width : Nat
  height : Nat
  px : Nat → Nat → List Nat
  palette : Nat → List Nat

def Frame.chan (f : Frame) (x y i : Nat) : Nat := (f.px x y).getD i 0

/-- Pillow's MULDIV255 macro: `t := a*b + 128; ((t >> 8) + t) >> 8`,
an exact rounding of `a*b/255` for byte-range inputs. -/
def muldiv255 (a b : Nat) : Nat :=
  let t := a * b + 128
  (t / 256 + t) / 256

/-- Pillow's BLEND macro used by `Image.paste` with an 8-bit mask `m`:
mask 0 keeps the background channel, mask 255 takes the source channel. -/
def blendChan (m bgc srcc : Nat) : Nat :=
  muldiv255 bgc (255 - m) + muldiv255 srcc m

/-- PIL `img.convert` to `RGB` for each mode. -/
def Frame.convertRGB (f : Frame) : Frame :=
  match f.mode with
  | .RGB => f
  | .RGBA => { f with mode := .RGB, px := fun x y => (f.px x y).take 3 }
  | .LA => { f with mode := .RGB, px := fun x y => [f.chan x y 0, f.chan x y 0, f.chan x y 0] }
  | .L => { f with mode := .RGB, px := fun x y => [f.chan x y 0, f.chan x y 0, f.chan x y 0] }
  | .P => { f with mode := .RGB, px := fun x y => (f.palette (f.chan x y 0)).take 3 }

/-- PIL `img.convert` to `RGBA` (used on P-mode images in
`_ensure_rgb_mode`). -/
def Frame.convertRGBA (f : Frame) : Frame :=
  match f.mode with
  | .RGBA => f
  | .RGB => { f with mode := .RGBA, px := fun x y => f.px x y ++ [255] }
  | .LA =>
    { f with
      mode := .RGBA
      px := fun x y => [f.chan x y 0, f.chan x y 0, f.chan x y 0, f.chan x y 1] }
  | .L =>
    { f with
      mode := .RGBA
      px := fun x y => [f.chan x y 0, f.chan x y 0, f.chan x y 0, 255] }
  | .P => { f with mode := .RGBA, px := fun x y => f.palette (f.chan x y 0) }

/-- `Image.new('RGB', (w, h), (255, 255, 255))`. -/
def whiteBackground (w h : Nat) : Frame :=
  { mode := .RGB, width := w, height := h,
    px := fun _ _ => [255, 255, 255], palette := fun _ => [0, 0, 0, 255] }

/-- `background.paste(src, mask=mask)` on an RGB background of the same
size: the source is converted to the background's mode; with no mask the
source overwrites the background, with an 8-bit mask each channel is
blended by Pillow's BLEND rule. -/
def Frame.paste (bg src : Frame) (mask : Option (Nat → Nat → Nat)) : Frame :=
  let s := src.convertRGB
  { bg with px := fun x y =>
      match mask with
      | none => s.px x y
      | some m =>
        [blendChan (m x y) (bg.chan x y 0) (s.chan x y 0),
         blendChan (m x y) (bg.chan x y 1) (s.chan x y 1),
         blendChan (m x y) (bg.chan x y 2) (s.chan x y 2)] }

/-- `ImageConverter._ensure_rgb_mode` (src/image_converter.py:62-79):
RGB passes through; RGBA/LA/P are pasted onto a white background (P is
first expanded to RGBA; the mask is the 4th channel for RGBA and None for
LA); any other mode is force-converted to RGB. -/
def ensure_rgb_mode (f : Frame) : Frame :=
  if f.mode = .RGB then f
  else if f.mode = .RGBA ∨ f.mode = .LA ∨ f.mode = .P then
    let background := whiteBackground f.width f.height
    let f1 := if f.mode = .P then f.convertRGBA else f
    if f1.mode = .RGBA ∨ f1.mode = .LA then
      background.paste f1 (if f1.mode = .RGBA then some (fun x y => f1.chan x y 3) else none)
    else f1.convertRGB
  else f.convertRGB

/-! ## PIL image handles -/

/-- An opened PIL image: detected format tag (None for images created in
memory), the current frame (index 0 right after `Image.open` or
`seek(0)`), and the remaining frames 1..N-1. -/
structure PILImage where
  format : Option Format
  frame : Frame
  rest : List Frame

def PILImage.nFrames (img : PILImage) : Nat := 1 + img.rest.length

/-- Saving the current frame to an in-memory PNG buffer and re-opening it:
PNG is lossless for RGB, the reopened handle is single-frame and its
format tag is PNG. -/
def savePNGAndReopen (f : Frame) : PILImage :=
  { format := some .PNG, frame := f, rest := [] }

/-- `ImageConverter.convert_mpo_to_png` (src/image_converter.py:41-60):
seek to frame 0 (the current frame), normalize color, re-encode as PNG. -/
def convert_mpo_to_png (img : PILImage) : PILImage :=
  savePNGAndReopen (ensure_rgb_mode img.frame)

/-- `ImageConverter.convert_to_png` (src/image_converter.py:81-115). -/
def convert_to_png (img : PILImage) (original_format : Option Format) :
    PILImage × Bool :=
  let converted :=
    if img.format = some .MPO then convert_mpo_to_png img
    else savePNGAndReopen (ensure_rgb_mode img.frame)
  let was_converted := if original_format = some .PNG then false else true
  (converted, was_converted)

/-! ## Converter class state and format validation -/

/-- `ImageConverter.SUPPORTED_FORMATS` is a class-level list; `__init__`
mutates it in place.  This structure is that class-level state. -/
structure ConverterState where
  supported : List Format
deriving DecidableEq, Repr

def initialSupportedFormats : List Format := [.PNG, .JPEG, .MPO]

/-- `ImageConverter.__init__` (src/image_converter.py:13-17): when HEIC
decode capability is available it extends the class-level format list. -/
def converterInit (heic_supported : Bool) (s : ConverterState) : ConverterState :=
  if heic_supported then { supported := s.supported ++ [.HEIF, .HEIC] } else s

/-- `ImageConverter.validate_format` (src/image_converter.py:30-32):
`img.format in self.SUPPORTED_FORMATS` (a `None` format is never a
member). -/
def validate_format (s : ConverterState) (img : PILImage) : Bool :=
  match img.format with
  | some f => decide (f ∈ s.supported)
  | none => false

/-- `ImageConverter.get_supported_formats_message`
(src/image_converter.py:34-39). -/
def get_supported_formats_message (heic_supported : Bool) : String :=
  if heic_supported then "PNG, JPEG, HEIC/HEIF (iPhone photos)" else "PNG, JPEG"

/-- Python `f-string` rendering of the detected format tag. -/
def formatTagStr : Option Format → String
  | some f => f.name
  | none => "None"

/-! ## process_image and its error discipline -/

/-- Python exception classes escaping `process_image`: `ValueError`
(re-raised as-is for unsupported formats) and the bare `Exception`
wrapper used for every other failure. -/
inductive PyErr
  | valueError (msg : String)
  | exceptionError (msg : String)
deriving DecidableEq, Repr

/-- True exactly for the error class `process_image` raises distinctly
(the unsupported-format `ValueError`); the generic wrapper is a bare
`Exception`. -/
def PyErr.isDistinctValidationError : PyErr → Bool
  | .valueError _ => true
  | .exceptionError _ => false

/-- The external PIL decoder: `Image.open` on the raw bytes (error message
on failure) and `img.verify()` (some message exactly when structural
verification fails on those bytes).  The failures modelled here are PIL's
decode errors (`UnidentifiedImageError` and friends, OSError-family, not
`ValueError`), so in `process_image` they take the generic
`except Exception` path. -/
structure DecodeEnv where
  openImage : List Nat → Except String PILImage
  verifyImage : List Nat → Option String

/-- `ImageConverter.process_image` (src/image_converter.py:117-148):
open, verify, re-open, validate the detected format (raising `ValueError`
with the supported-formats message), convert to PNG; `ValueError` is
re-raised as-is, every other exception is wrapped into
`Exception("Invalid image file: ...")`. -/
def process_image (env : DecodeEnv) (s : ConverterState) (heic_supported : Bool)
    (file_content : List Nat) : Except PyErr (PILImage × Option Format × Bool) :=
  match env.openImage file_content with
  | .error e => .error (.exceptionError ("Invalid image file: " ++ e))
  | .ok _ =>
    match env.verifyImage file_content with
    | some e => .error (.exceptionError ("Invalid image file: " ++ e))
    | none =>
      match env.openImage file_content with
      | .error e => .error (.exceptionError ("Invalid image file: " ++ e))
      | .ok img =>
        let original_format := img.format
        if validate_format s img = false then
          .error (.valueError ("Unsupported image format: " ++ formatTagStr original_format
            ++ ". Supported formats: " ++ get_supported_formats_message heic_supported))
        else
          let r := convert_to_png img original_format
          .ok (r.1, original_format, r.2)

/-! ## Inference adapter: class labels, rounding, predict -/

/-- `SkinLesionClassifier.CLASS_NAMES` (src/skin_lesion_classifier.py:41). -/
def CLASS_NAMES : List String :=
  ["nevus", "melanoma", "other", "squamous cell carcinoma", "solar lentigo",
   "basal cell carcinoma", "melanoma metastasis", "seborrheic keratosis",
   "actinic keratosis", "dermatofibroma", "scar", "vascular lesion"]

/-- Python's `round` to the nearest integer, ties to even. -/
def roundHalfEven (q : ℚ) : ℤ :=
  if Int.fract q < 1 / 2 then ⌊q⌋
  else if 1 / 2 < Int.fract q then ⌊q⌋ + 1
  else if ⌊q⌋ % 2 = 0 then ⌊q⌋ else ⌊q⌋ + 1

/-- Python's `round(x, 3)`. -/
def round3 (q : ℚ) : ℚ := (roundHalfEven (q * 1000) : ℚ) / 1000

/-- `SkinLesionClassifier.predict` result construction
(src/skin_lesion_classifier.py:165-167): the predictor's raw output row
`raw` is mapped positionally onto `CLASS_NAMES`, each value rounded to 3
decimals; the Python dict is modelled as the association list in insertion
order. -/
def predict (raw : Nat → ℚ) : List (String × ℚ) :=
  CLASS_NAMES.enum.map fun p => (p.2, round3 (raw p.1))

/-! ## Lazy model loading and scratch-directory registry -/

/-- External world of the model loader: `tempfile.mkdtemp`, whether
`zipfile.ZipFile(path)` opens, the `.keras` file `os.walk` finds in the
extracted directory (if any), `os.path.exists`, and the result of
`tf.keras.models.load_model` (`none` = success, `some msg` =
deserialization failure). -/
structure LoaderEnv where
  mkdtempFor : String → String
  zipOpens : String → Bool
  kerasFileIn : String → Option String
  pathExists : String → Bool
  loadModelResult : String → Option String

/-- The module-level registries `_models` (presence of a non-None model),
`_models_loaded`, and `_temp_dirs` (src/skin_lesion_classifier.py:16-18). -/
structure LoaderState where
  models_loaded : List (String × Bool)
  models_present : List String
  temp_dirs : List (String × String)
deriving DecidableEq, Repr

def LoaderState.initial : LoaderState := { models_loaded := [], models_present := [], temp_dirs := [] }

def DEFAULT_MODEL_ZIP : String := "BCN20000.keras.zip"

/-- Python `str.endswith`, as a structural recursion over the character
lists of the two strings. -/
def pyEndsWith (s t : String) : Bool := t.data.isSuffixOf s.data

def MODEL_CONFIGS : List (String × String) := []

/-- `SkinLesionClassifier._extract_model_if_zipped`
(src/skin_lesion_classifier.py:22-39): for a `.zip` path, create the
scratch directory for the model name if not yet registered, open and
extract the archive (failing if the zip cannot be opened), and walk the
scratch directory for a `.keras` file; otherwise return the path as-is. -/
def extract_model_if_zipped (env : LoaderEnv) (td : List (String × String))
    (model_path model_name : String) : Except String String × List (String × String) :=
  if pyEndsWith model_path ".zip" then
    let td1 := if (td.lookup model_name).isNone then (model_name, env.mkdtempFor model_name) :: td
               else td
    if env.zipOpens model_path then
      match env.kerasFileIn model_path with
      | some p => (.ok p, td1)
      | none => (.error ("No .keras model file found in the zip archive for " ++ model_name), td1)
    else (.error ("No such file or directory: " ++ model_path), td1)
  else (.ok model_path, td)

/-- `SkinLesionClassifier._cleanup_temp_files(model_name)`
(src/skin_lesion_classifier.py:114-125): remove the scratch directory (a
removal failure only logs a warning) and pop the registry entry. -/
def cleanup_temp_files_for (st : LoaderState) (model_name : String) : LoaderState :=
  { st with temp_dirs := st.temp_dirs.filter fun p => p.1 ≠ model_name }

/-- Model-path resolution in `_ensure_model_loaded`
(src/skin_lesion_classifier.py:92-97): a configured path if the name is in
`MODEL_CONFIGS`, the default zip for "default", else the name itself. -/
def resolve_model_path (model_name : String) : String :=
  match MODEL_CONFIGS.lookup model_name with
  | some p => p
  | none => if model_name = "default" then DEFAULT_MODEL_ZIP else model_name

/-- `SkinLesionClassifier._ensure_model_loaded` (the second definition,
src/skin_lesion_classifier.py:84-112, which shadows the first): no-op when
the model is already loaded; otherwise resolve the model path, extract,
check existence, deserialize; on any failure call
`_cleanup_temp_files(model_name)` and re-raise. -/
def ensure_model_loaded (env : LoaderEnv) (st : LoaderState) (model_name : String) :
    Except String Unit × LoaderState :=
  if ((st.models_loaded.lookup model_name).getD false
      && st.models_present.contains model_name) then (.ok (), st)
  else
    match extract_model_if_zipped env st.temp_dirs (resolve_model_path model_name) model_name with
    | (.error e, td) => (.error e, cleanup_temp_files_for { st with temp_dirs := td } model_name)
    | (.ok actual_model_path, td) =>
      if env.pathExists actual_model_path = false then
        (.error ("Model file not found for " ++ model_name ++ ": " ++ actual_model_path),
         cleanup_temp_files_for { st with temp_dirs := td } model_name)
      else
        match env.loadModelResult actual_model_path with
        | some e => (.error e, cleanup_temp_files_for { st with temp_dirs := td } model_name)
        | none =>
          (.ok (), { st with
                     temp_dirs := td
                     models_loaded := (model_name, true) :: st.models_loaded
                     models_present := model_name :: st.models_present })

/-! ## Concrete fixtures used by witnesses and counterexamples -/

/-- A 1x1 opaque RGB frame. -/
def rgbFrame : Frame :=
  { mode := .RGB, width := 1, height := 1, px := fun _ _ => [7, 8, 9],
    palette := fun _ => [0, 0, 0, 255] }

/-- A 1x1 fully opaque RGBA frame. -/
def rgbaFrame : Frame :=
  { mode := .RGBA, width := 1, height := 1, px := fun _ _ => [10, 20, 30, 255],
    palette := fun _ => [0, 0, 0, 255] }

/-- A 1x1 fully transparent black LA frame. -/
def laFrame : Frame :=
  { mode := .LA, width := 1, height := 1, px := fun _ _ => [0, 0],
    palette := fun _ => [0, 0, 0, 255] }

/-- Decoder environment that decodes every input to a PNG-tagged RGB image. -/
def envPNG : DecodeEnv :=
  { openImage := fun _ => .ok { format := some .PNG, frame := rgbFrame, rest := [] }
    verifyImage := fun _ => none }

/-- Decoder environment that decodes every input to a JPEG-tagged RGB image. -/
def envJPEG : DecodeEnv :=
  { openImage := fun _ => .ok { format := some .JPEG, frame := rgbFrame, rest := [] }
    verifyImage := fun _ => none }

/-- Decoder environment that decodes every input to a BMP-tagged RGB image
(a valid image in a format outside the supported set). -/
def envBMP : DecodeEnv :=
  { openImage := fun _ => .ok { format := some .BMP, frame := rgbFrame, rest := [] }
    verifyImage := fun _ => none }

/-- Decoder environment on which `Image.open` always fails (bytes that are
not a valid image container). -/
def envBadBytes : DecodeEnv :=
  { openImage := fun _ => .error "cannot identify image file"
    verifyImage := fun _ => none }

/-- The converter class state after the startup construction, without HEIC
support. -/
def stateNoHeic : ConverterState := converterInit false { supported := initialSupportedFormats }

/-- Loader environment in which the model zip archive is missing. -/
def loaderEnvMissingZip : LoaderEnv :=
  { mkdtempFor := fun _ => "/tmp/tmpabc_model"
    zipOpens := fun _ => false
    kerasFileIn := fun _ => none
    pathExists := fun _ => false
    loadModelResult := fun _ => some "deserialization failed" }

/-- Modelled from the spec claim for C5 (not from the source): an LA frame
composited onto an opaque white background using its alpha channel (channel
index 1) as the blend mask.  The source (`_ensure_rgb_mode`) is compared
against this. -/
def ensureOpaqueRGB_LA_spec (f : Frame) : Frame :=
  (whiteBackground f.width f.height).paste f (some fun x y => f.chan x y 1)

/-! ## Helper lemmas -/

theorem muldiv255_zero_right (a : Nat) : muldiv255 a 0 = 0 := by
  simp [muldiv255]

theorem muldiv255_255_right (a : Nat) (h : a ≤ 255) : muldiv255 a 255 = a := by
  simp only [muldiv255]
  omega

theorem blendChan_mask_zero (bg s : Nat) (h : bg ≤ 255) : blendChan 0 bg s = bg := by
  simp [blendChan, muldiv255_zero_right, muldiv255_255_right bg h]

theorem blendChan_mask_full (bg s : Nat) (h : s ≤ 255) : blendChan 255 bg s = s := by
  simp [blendChan, muldiv255_zero_right, muldiv255_255_right s h]

theorem convertRGB_mode (f : Frame) : f.convertRGB.mode = .RGB := by
  cases h : f.mode <;> simp [Frame.convertRGB, h]

theorem ensure_rgb_mode_mode (f : Frame) : (ensure_rgb_mode f).mode = .RGB := by
  cases h : f.mode <;>
    simp [ensure_rgb_mode, h, Frame.paste, Frame.convertRGBA, Frame.convertRGB,
      whiteBackground]

theorem chan_convertRGB_of_rgba (f : Frame) (h : f.mode = .RGBA) (x y i : Nat) (hi : i < 3) :
    f.convertRGB.chan x y i = f.chan x y i := by
  simp [Frame.convertRGB, h, Frame.chan, List.getElem?_take_of_lt hi]

theorem whiteBackground_chan (w h x y i : Nat) (hi : i < 3) :
    (whiteBackground w h).chan x y i = 255 := by
  interval_cases i <;> simp [whiteBackground, Frame.chan]

theorem convert_to_png_fst (img : PILImage) (orig : Option Format) :
    (convert_to_png img orig).1 = savePNGAndReopen (ensure_rgb_mode img.frame) := by
  simp only [convert_to_png, convert_mpo_to_png]
  split <;> rfl

theorem convert_to_png_snd (img : PILImage) (orig : Option Format) :
    (convert_to_png img orig).2 = (if orig = some .PNG then false else true) := rfl

theorem lookup_filter_ne_eq_none (l : List (String × String)) (name : String) :
    (l.filter fun p => p.1 ≠ name).lookup name = none := by
  induction l with
  | nil => rfl
  | cons a l ih =>
    by_cases ha : a.1 = name
    · simpa [List.filter_cons, ha] using ih
    · have hb : (name == a.1) = false := beq_eq_false_iff_ne.mpr fun hh => ha hh.symm
      simp [List.filter_cons, ha, List.lookup, hb, ih]
      exact fun _ _ _ hne hh => hne hh.symm

theorem roundHalfEven_nonneg (q : ℚ) (h : 0 ≤ q) : 0 ≤ roundHalfEven q := by
  have h0 : (0:ℤ) ≤ ⌊q⌋ := Int.floor_nonneg.mpr h
  unfold roundHalfEven
  split_ifs <;> omega

theorem roundHalfEven_le (q : ℚ) (n : ℤ) (hq : q ≤ (n : ℚ)) : roundHalfEven q ≤ n := by
  have hfl : ⌊q⌋ ≤ n := by
    have := Int.floor_le_floor hq
    simpa using this
  have hup : ¬ Int.fract q < 1 / 2 → ⌊q⌋ + 1 ≤ n := by
    intro h1
    have hfr : (1:ℚ)/2 ≤ q - ⌊q⌋ := by
      have h2 := le_of_not_lt h1
      unfold Int.fract at h2
      linarith
    have hcast : (⌊q⌋:ℚ) < (n:ℚ) := by linarith
    exact_mod_cast Int.add_one_le_iff.mpr (by exact_mod_cast hcast)
  unfold roundHalfEven
  split_ifs with h1 h2 h3 <;> first | exact hfl | exact hup h1

theorem round3_nonneg (q : ℚ) (h : 0 ≤ q) : 0 ≤ round3 q := by
  unfold round3
  have := roundHalfEven_nonneg (q * 1000) (by positivity)
  positivity

theorem round3_le_one (q : ℚ) (h : q ≤ 1) : round3 q ≤ 1 := by
  unfold round3
  have hb : roundHalfEven (q * 1000) ≤ 1000 :=
    roundHalfEven_le (q * 1000) 1000 (by push_cast; linarith)
  rw [div_le_one (by norm_num)]
  exact_mod_cast hb

/-! ## Claim theorems -/

/-- C4: for every RGBA input (with byte-range channels), `_ensure_rgb_mode`
composites it onto an opaque white background of the same pixel dimensions
using the 4th (alpha) channel as the blend mask; fully transparent pixels
come out pure white, and for fully opaque pixels the output equals the
original RGB values unchanged. -/
theorem C4_rgba_white_composite (f : Frame) (hmode : f.mode = .RGBA)
    (hb : ∀ x y i, f.chan x y i ≤ 255) :
    ensure_rgb_mode f =
      (whiteBackground f.width f.height).paste f (some fun x y => f.chan x y 3) ∧
    (ensure_rgb_mode f).mode = .RGB ∧
    (ensure_rgb_mode f).width = f.width ∧
    (ensure_rgb_mode f).height = f.height ∧
    (∀ x y, f.chan x y 3 = 0 → (ensure_rgb_mode f).px x y = [255, 255, 255]) ∧
    (∀ x y, f.chan x y 3 = 255 →
      (ensure_rgb_mode f).px x y = [f.chan x y 0, f.chan x y 1, f.chan x y 2]) := by
  have hform : ensure_rgb_mode f =
      (whiteBackground f.width f.height).paste f (some fun x y => f.chan x y 3) := by
    simp [ensure_rgb_mode, hmode]
  refine ⟨hform, ensure_rgb_mode_mode f, ?_, ?_, ?_, ?_⟩
  · rw [hform]; rfl
  · rw [hform]; rfl
  · intro x y ha
    rw [hform]
    show [blendChan (f.chan x y 3) ((whiteBackground f.width f.height).chan x y 0)
            (f.convertRGB.chan x y 0),
          blendChan (f.chan x y 3) ((whiteBackground f.width f.height).chan x y 1)
            (f.convertRGB.chan x y 1),
          blendChan (f.chan x y 3) ((whiteBackground f.width f.height).chan x y 2)
            (f.convertRGB.chan x y 2)] = [255, 255, 255]
    rw [ha, whiteBackground_chan f.width f.height x y 0 (by omega),
        whiteBackground_chan f.width f.height x y 1 (by omega),
        whiteBackground_chan f.width f.height x y 2 (by omega),
        blendChan_mask_zero 255 _ (by omega), blendChan_mask_zero 255 _ (by omega),
        blendChan_mask_zero 255 _ (by omega)]
  · intro x y ha
    rw [hform]
    show [blendChan (f.chan x y 3) ((whiteBackground f.width f.height).chan x y 0)
            (f.convertRGB.chan x y 0),
          blendChan (f.chan x y 3) ((whiteBackground f.width f.height).chan x y 1)
            (f.convertRGB.chan x y 1),
          blendChan (f.chan x y 3) ((whiteBackground f.width f.height).chan x y 2)
            (f.convertRGB.chan x y 2)] = [f.chan x y 0, f.chan x y 1, f.chan x y 2]
    have hle : ∀ i, i < 3 → f.convertRGB.chan x y i ≤ 255 := by
      intro i hi
      rw [chan_convertRGB_of_rgba f hmode x y i hi]
      exact hb x y i
    rw [ha, blendChan_mask_full _ _ (hle 0 (by omega)),
        blendChan_mask_full _ _ (hle 1 (by omega)),
        blendChan_mask_full _ _ (hle 2 (by omega)),
        chan_convertRGB_of_rgba f hmode x y 0 (by omega),
        chan_convertRGB_of_rgba f hmode x y 1 (by omega),
        chan_convertRGB_of_rgba f hmode x y 2 (by omega)]

/-- C4 witness: the fully opaque 1x1 RGBA fixture at pixel (0,0) keeps its
original RGB values. -/
theorem C4_rgba_white_composite_witness :
    (ensure_rgb_mode rgbaFrame).px 0 0
      = [rgbaFrame.chan 0 0 0, rgbaFrame.chan 0 0 1, rgbaFrame.chan 0 0 2] :=
  (C4_rgba_white_composite rgbaFrame rfl
    (by intro x y i; rcases i with _ | _ | _ | _ | i <;> simp [rgbaFrame, Frame.chan])).2.2.2.2.2
    0 0 rfl

/-- C5 counterexample: on a fully transparent LA pixel (luminance 0, alpha
0), `_ensure_rgb_mode` yields black (0,0,0), whereas compositing onto white
with the alpha channel as the blend mask — what the claim states — would
yield white (255,255,255): the LA branch passes `mask=None` and ignores the
alpha channel. -/
theorem C5_la_mask_counterexample :
    (ensure_rgb_mode laFrame).px 0 0 = [0, 0, 0] ∧
    (ensureOpaqueRGB_LA_spec laFrame).px 0 0 = [255, 255, 255] ∧
    (ensure_rgb_mode laFrame).px 0 0 ≠ (ensureOpaqueRGB_LA_spec laFrame).px 0 0 :=
  ⟨rfl, rfl, by decide⟩

/-- C5 (amended): for every LA input, `_ensure_rgb_mode` pastes it onto an
opaque white background of identical pixel dimensions with no mask (full
overwrite; the alpha channel is ignored), producing an opaque RGB result in
which every pixel is the luminance channel replicated to R=G=B. -/
theorem C5_la_no_mask_overwrite (f : Frame) (hmode : f.mode = .LA) :
    ensure_rgb_mode f = (whiteBackground f.width f.height).paste f none ∧
    (ensure_rgb_mode f).mode = .RGB ∧
    (ensure_rgb_mode f).width = f.width ∧
    (ensure_rgb_mode f).height = f.height ∧
    (∀ x y, (ensure_rgb_mode f).px x y = [f.chan x y 0, f.chan x y 0, f.chan x y 0]) := by
  have hform : ensure_rgb_mode f = (whiteBackground f.width f.height).paste f none := by
    simp [ensure_rgb_mode, hmode]
  refine ⟨hform, ensure_rgb_mode_mode f, ?_, ?_, ?_⟩
  · rw [hform]; rfl
  · rw [hform]; rfl
  · intro x y
    rw [hform]
    show f.convertRGB.px x y = [f.chan x y 0, f.chan x y 0, f.chan x y 0]
    simp [Frame.convertRGB, hmode]

/-- C5 witness: the amended statement at the concrete LA fixture's pixel
(0,0). -/
theorem C5_la_no_mask_overwrite_witness :
    (ensure_rgb_mode laFrame).px 0 0
      = [laFrame.chan 0 0 0, laFrame.chan 0 0 0, laFrame.chan 0 0 0] :=
  (C5_la_no_mask_overwrite laFrame rfl).2.2.2.2 0 0

/-- C6: for an MPO input, only frame 0 (the current frame after `seek(0)`)
is used: converting a multi-frame MPO image gives exactly the result of
converting the single-frame image holding frame 0 alone with the same
format tag, both through `convert_mpo_to_png` and through
`convert_to_png`; frames 1..N-1 never influence the output. -/
theorem C6_mpo_first_frame_only (f : Frame) (rest : List Frame) (orig : Option Format) :
    convert_mpo_to_png { format := some .MPO, frame := f, rest := rest } =
      convert_mpo_to_png { format := some .MPO, frame := f, rest := [] } ∧
    convert_to_png { format := some .MPO, frame := f, rest := rest } orig =
      convert_to_png { format := some .MPO, frame := f, rest := [] } orig :=
  ⟨rfl, rfl⟩

theorem process_image_ok_shape (env : DecodeEnv) (s : ConverterState) (heic : Bool)
    (content : List Nat) (img : PILImage) (fmt : Option Format) (conv : Bool)
    (h : process_image env s heic content = .ok (img, fmt, conv)) :
    ∃ i0, env.openImage content = .ok i0 ∧
      img = savePNGAndReopen (ensure_rgb_mode i0.frame) ∧
      fmt = i0.format ∧
      conv = (if i0.format = some .PNG then false else true) := by
  unfold process_image at h
  cases hop : env.openImage content with
  | error e => rw [hop] at h; exact absurd h (by simp)
  | ok i0 =>
    rw [hop] at h
    cases hv : env.verifyImage content with
    | some e => rw [hv] at h; exact absurd h (by simp)
    | none =>
      rw [hv] at h
      simp only at h
      by_cases hval : validate_format s i0 = false
      · rw [if_pos hval] at h; exact absurd h (by simp)
      · rw [if_neg hval] at h
        simp only [Except.ok.injEq, Prod.mk.injEq] at h
        obtain ⟨h1, h2, h3⟩ := h
        exact ⟨i0, rfl, h1.symm.trans (convert_to_png_fst i0 i0.format), h2.symm,
          h3.symm.trans (convert_to_png_snd i0 i0.format)⟩

/-- C1: whenever `process_image` succeeds, the returned image satisfies the
NormalizedImage invariant — its color mode is RGB, it is a single-frame
image, and its internal format tag is the canonical format PNG (the bitmap
having been re-encoded to PNG in memory and decoded back). -/
theorem C1_normalized_invariant (env : DecodeEnv) (s : ConverterState) (heic : Bool)
    (content : List Nat) (img : PILImage) (fmt : Option Format) (conv : Bool)
    (h : process_image env s heic content = .ok (img, fmt, conv)) :
    img.frame.mode = .RGB ∧ img.nFrames = 1 ∧ img.rest = [] ∧ img.format = some .PNG := by
  obtain ⟨i0, _, himg, _, _⟩ := process_image_ok_shape env s heic content img fmt conv h
  subst himg
  exact ⟨ensure_rgb_mode_mode _, rfl, rfl, rfl⟩

/-- C1 witness: a concrete successful run on a PNG-decoding environment. -/
theorem C1_normalized_invariant_witness :
    (savePNGAndReopen (ensure_rgb_mode rgbFrame)).frame.mode = .RGB ∧
    (savePNGAndReopen (ensure_rgb_mode rgbFrame)).nFrames = 1 ∧
    (savePNGAndReopen (ensure_rgb_mode rgbFrame)).rest = [] ∧
    (savePNGAndReopen (ensure_rgb_mode rgbFrame)).format = some .PNG :=
  C1_normalized_invariant envPNG stateNoHeic false [0]
    (savePNGAndReopen (ensure_rgb_mode rgbFrame)) (some .PNG) false rfl

/-- C7: whenever `process_image` succeeds, `was_converted` is true exactly
when the detected original format differs from the canonical format PNG;
in particular it is false for PNG inputs and true for JPEG, MPO, HEIC and
HEIF inputs. -/
theorem C7_was_converted (env : DecodeEnv) (s : ConverterState) (heic : Bool)
    (content : List Nat) (img : PILImage) (fmt : Option Format) (conv : Bool)
    (h : process_image env s heic content = .ok (img, fmt, conv)) :
    conv = (if fmt = some .PNG then false else true) ∧
    (fmt = some .PNG → conv = false) ∧
    ((fmt = some .JPEG ∨ fmt = some .MPO ∨ fmt = some .HEIC ∨ fmt = some .HEIF) →
      conv = true) := by
  obtain ⟨i0, _, _, hfmt, hconv⟩ := process_image_ok_shape env s heic content img fmt conv h
  subst hfmt
  subst hconv
  refine ⟨rfl, fun hp => by simp [hp], fun hf => ?_⟩
  rcases hf with hf | hf | hf | hf <;> simp [hf]

/-- C7 witness: a concrete successful run on a JPEG-decoding environment
returns `was_converted = true`. -/
theorem C7_was_converted_witness :
    (true = (if (some Format.JPEG : Option Format) = some .PNG then false else true)) ∧
    ((some Format.JPEG : Option Format) = some .PNG → true = false) ∧
    (((some Format.JPEG : Option Format) = some .JPEG ∨ (some Format.JPEG : Option Format) = some .MPO ∨
      (some Format.JPEG : Option Format) = some .HEIC ∨ (some Format.JPEG : Option Format) = some .HEIF) →
      true = true) :=
  C7_was_converted envJPEG stateNoHeic false [0]
    (savePNGAndReopen (ensure_rgb_mode rgbFrame)) (some .JPEG) true rfl

/-- C2 counterexample: with the startup state (no HEIC), a valid BMP image
fails with the ValueError message "Unsupported image format: BMP. Supported
formats: PNG, JPEG"; `validate_format` accepts MPO, yet the string "MPO"
does not occur in that message (while "PNG" does), so the message does not
enumerate exactly the set consulted by `validate_format`. -/
theorem C2_message_omits_mpo_counterexample :
    process_image envBMP stateNoHeic false [0] = .error (.valueError
      "Unsupported image format: BMP. Supported formats: PNG, JPEG") ∧
    validate_format stateNoHeic { format := some .MPO, frame := rgbFrame, rest := [] } = true ∧
    ¬ List.IsInfix "MPO".data
        "Unsupported image format: BMP. Supported formats: PNG, JPEG".data ∧
    List.IsInfix "PNG".data
        "Unsupported image format: BMP. Supported formats: PNG, JPEG".data :=
  ⟨rfl, rfl, by decide, by decide⟩

/-- C2 (amended): for every valid decodable image whose detected format
fails `validate_format`, `process_image` fails with the distinct
`ValueError` whose message lists the base formats "PNG, JPEG" plus,
conditionally when HEIC support is active, "HEIC/HEIF (iPhone photos)" —
the `get_supported_formats_message` text, which omits the also-accepted
MPO format. -/
theorem C2_unsupported_format_error (env : DecodeEnv) (s : ConverterState) (heic : Bool)
    (content : List Nat) (img : PILImage)
    (hopen : env.openImage content = .ok img)
    (hver : env.verifyImage content = none)
    (hval : validate_format s img = false) :
    process_image env s heic content = .error (.valueError
      ("Unsupported image format: " ++ formatTagStr img.format
        ++ ". Supported formats: " ++ get_supported_formats_message heic)) := by
  simp [process_image, hopen, hver, hval]

/-- C2 witness: the amended statement at the concrete BMP fixture. -/
theorem C2_unsupported_format_error_witness :
    process_image envBMP stateNoHeic false [0] = .error (.valueError
      ("Unsupported image format: "
        ++ formatTagStr (some .BMP)
        ++ ". Supported formats: " ++ get_supported_formats_message false)) :=
  C2_unsupported_format_error envBMP stateNoHeic false [0]
    { format := some .BMP, frame := rgbFrame, rest := [] } rfl rfl rfl

/-- C3 counterexample: on bytes that do not parse as an image,
`process_image` fails with the bare generic wrapper
`Exception("Invalid image file: ...")` — the same class into which all
internal failures are wrapped — not with a distinct validation-error class
(only the unsupported-format `ValueError` is distinct). -/
theorem C3_not_distinct_counterexample :
    process_image envBadBytes stateNoHeic false [0]
      = .error (.exceptionError "Invalid image file: cannot identify image file") ∧
    PyErr.isDistinctValidationError
      (.exceptionError "Invalid image file: cannot identify image file") = false :=
  ⟨rfl, rfl⟩

/-- C3 (amended): for every byte sequence on which decoding (or the
integrity verification step) fails, `process_image` fails — it never
returns a partial image — but the failure is the generic wrapped
`Exception("Invalid image file: <cause>")`, indistinguishable by class
from wrapped internal failures; it is not raised distinctly. -/
theorem C3_decode_failure_wrapped (env : DecodeEnv) (s : ConverterState) (heic : Bool)
    (content : List Nat) (m : String)
    (h : env.openImage content = .error m ∨
      ((∃ img, env.openImage content = .ok img) ∧ env.verifyImage content = some m)) :
    process_image env s heic content
      = .error (.exceptionError ("Invalid image file: " ++ m)) ∧
    PyErr.isDistinctValidationError (.exceptionError ("Invalid image file: " ++ m)) = false := by
  refine ⟨?_, rfl⟩
  rcases h with h | ⟨⟨img, hop⟩, hver⟩
  · simp [process_image, h]
  · simp [process_image, hop, hver]

/-- C3 witness: the amended statement at the concrete undecodable-bytes
fixture. -/
theorem C3_decode_failure_wrapped_witness :
    process_image envBadBytes stateNoHeic false [0]
      = .error (.exceptionError ("Invalid image file: " ++ "cannot identify image file")) ∧
    PyErr.isDistinctValidationError
      (.exceptionError ("Invalid image file: " ++ "cannot identify image file")) = false :=
  C3_decode_failure_wrapped envBadBytes stateNoHeic false [0]
    "cannot identify image file" (Or.inl rfl)

/-- C8: for every raw predictor output (with softmax-range values), the
mapping returned by `predict` has exactly the fixed ordered 12 class labels
as keys, each value is the raw output at that label's position rounded
independently to 3 decimal places and lies in [0,1]; the values are the
pointwise roundings with no renormalization applied after rounding. -/
theorem C8_predict_labels_and_rounding (raw : Nat → ℚ)
    (hb : ∀ i, i < 12 → 0 ≤ raw i ∧ raw i ≤ 1) :
    (predict raw).map Prod.fst = CLASS_NAMES ∧
    CLASS_NAMES.length = 12 ∧
    (predict raw).map Prod.snd = (List.range 12).map (fun i => round3 (raw i)) ∧
    (∀ p ∈ predict raw, 0 ≤ p.2 ∧ p.2 ≤ 1) := by
  refine ⟨rfl, rfl, rfl, ?_⟩
  intro p hp
  have h2 : p.2 ∈ (predict raw).map Prod.snd := List.mem_map_of_mem Prod.snd hp
  rw [show (predict raw).map Prod.snd
      = [round3 (raw 0), round3 (raw 1), round3 (raw 2), round3 (raw 3), round3 (raw 4),
         round3 (raw 5), round3 (raw 6), round3 (raw 7), round3 (raw 8), round3 (raw 9),
         round3 (raw 10), round3 (raw 11)] from rfl] at h2
  simp only [List.mem_cons, List.not_mem_nil, or_false] at h2
  rcases h2 with h | h | h | h | h | h | h | h | h | h | h | h <;>
    · rw [h]
      exact ⟨round3_nonneg _ (hb _ (by omega)).1, round3_le_one _ (hb _ (by omega)).2⟩

/-- C8 witness: uniform raw outputs 1/12 satisfy the bounds. -/
theorem C8_predict_labels_and_rounding_witness :
    (predict fun _ => (1:ℚ)/12).map Prod.fst = CLASS_NAMES ∧
    CLASS_NAMES.length = 12 ∧
    (predict fun _ => (1:ℚ)/12).map Prod.snd
      = (List.range 12).map (fun i => round3 ((fun _ => (1:ℚ)/12) i)) ∧
    (∀ p ∈ predict fun _ => (1:ℚ)/12, 0 ≤ p.2 ∧ p.2 ≤ 1) :=
  C8_predict_labels_and_rounding (fun _ => (1:ℚ)/12)
    (fun _ _ => ⟨by norm_num, by norm_num⟩)

theorem cleanup_lookup_none (st : LoaderState) (name : String) :
    (cleanup_temp_files_for st name).temp_dirs.lookup name = none :=
  lookup_filter_ne_eq_none st.temp_dirs name

/-- C9: whenever the lazy model load fails (the zip archive missing, no
.keras model file found inside, the extracted file missing, or the
deserialization failing), `_ensure_model_loaded` propagates an error and,
before it does, releases the scratch registration for that model name: the
temp-directory registry holds no entry for that name afterwards. -/
theorem C9_cleanup_on_failure (env : LoaderEnv) (st : LoaderState) (model_name : String)
    (e : String) (st' : LoaderState)
    (h : ensure_model_loaded env st model_name = (.error e, st')) :
    st'.temp_dirs.lookup model_name = none := by
  unfold ensure_model_loaded at h
  split at h
  · exact absurd h (by simp)
  · split at h
    · simp only [Prod.mk.injEq] at h
      rw [← h.2]
      exact cleanup_lookup_none _ _
    · split at h
      · simp only [Prod.mk.injEq] at h
        rw [← h.2]
        exact cleanup_lookup_none _ _
      · split at h
        · simp only [Prod.mk.injEq] at h
          rw [← h.2]
          exact cleanup_lookup_none _ _
        · exact absurd h (by simp)

/-- C9 witness: loading "default" with the model zip archive missing fails
and leaves no registry entry. -/
theorem C9_cleanup_on_failure_witness :
    LoaderState.initial.temp_dirs.lookup "default" = none :=
  C9_cleanup_on_failure loaderEnvMissingZip LoaderState.initial "default"
    "No such file or directory: BCN20000.keras.zip" LoaderState.initial rfl

theorem mem_converterInit (heic : Bool) (s : ConverterState) (f : Format)
    (hs : heic = true → (Format.HEIF ∈ s.supported ∧ Format.HEIC ∈ s.supported)) :
    f ∈ (converterInit heic s).supported ↔ f ∈ s.supported := by
  cases heic
  · simp [converterInit]
  · obtain ⟨h1, h2⟩ := hs rfl
    show f ∈ s.supported ++ [Format.HEIF, Format.HEIC] ↔ f ∈ s.supported
    constructor
    · intro hf
      rcases List.mem_append.mp hf with hf | hf
      · exact hf
      · have hfe : f = Format.HEIF ∨ f = Format.HEIC := by simpa using hf
        rcases hfe with rfl | rfl
        · exact h1
        · exact h2
    · exact fun hf => List.mem_append.mpr (Or.inl hf)

theorem mem_converterInit_iterate (heic : Bool) (n : Nat) (s : ConverterState) (f : Format)
    (hs : heic = true → (Format.HEIF ∈ s.supported ∧ Format.HEIC ∈ s.supported)) :
    f ∈ ((converterInit heic)^[n] s).supported ↔ f ∈ s.supported := by
  induction n generalizing s with
  | zero => simp
  | succ n ih =>
    rw [Function.iterate_succ_apply]
    have hs' : heic = true →
        (Format.HEIF ∈ (converterInit heic s).supported ∧
         Format.HEIC ∈ (converterInit heic s).supported) := by
      intro ht
      obtain ⟨h1, h2⟩ := hs ht
      exact ⟨(mem_converterInit heic s _ hs).mpr h1, (mem_converterInit heic s _ hs).mpr h2⟩
    exact (ih (converterInit heic s) hs').trans (mem_converterInit heic s f hs)

/-- C10: the set of formats consulted by `validate_format` is fixed by the
startup construction and immutable thereafter: constructing any number of
further `ImageConverter` instances (the only state-mutating operation;
the HEIC capability flag is constant per process since it only reflects
whether the codec module is importable) leaves every `validate_format`
answer unchanged, even
though the class-level list accumulates duplicate HEIF/HEIC entries. -/
theorem C10_supported_set_immutable (heic : Bool) (n : Nat) (img : PILImage) :
    validate_format ((converterInit heic)^[n]
        (converterInit heic { supported := initialSupportedFormats })) img
      = validate_format (converterInit heic { supported := initialSupportedFormats }) img := by
  have hs : heic = true →
      (Format.HEIF ∈ (converterInit heic { supported := initialSupportedFormats }).supported ∧
       Format.HEIC ∈ (converterInit heic { supported := initialSupportedFormats }).supported) := by
    intro ht
    subst ht
    constructor <;> simp [converterInit, initialSupportedFormats]
  unfold validate_format
  cases img.format with
  | none => rfl
  | some f => exact decide_eq_decide.mpr (mem_converterInit_iterate heic n _ f hs)

end SkinService
